import Mathlib

/-!
Shallow embedding of the routing-and-pooling core of the lblight reverse
proxy (src/pkg/lblight.go), together with theorems settling the spec
claims about it.

Modelling conventions:
* Go pointers to `Backend` values are represented by the index of the
  backend in its owning router's `backends` slice; Go pointers to
  `BackendRouter` values are represented by an index (`Nat`) into a heap
  list of routers (`LBState.routers`).
* Go maps are represented by association lists.  Go map iteration order
  is unspecified; the list fixes one realizable order (insertion order).
  `mapGet`/`mapSet` give the usual lookup/insert-or-replace semantics.
* `strings.ToLower` is modelled character-wise (ASCII case folding,
  which covers every string appearing in the claims), and
  `strings.HasPrefix` by character-list prefix, which agrees with the
  byte-level test on valid UTF-8.
* `url.Parse` is an external library call; `newBackend` below takes its
  result as a parameter.  The success payload (`mkBackend`) is what the
  Go constructor builds when parsing succeeds: Alive=false, InUse=false.
-/

/-- Embedding of the Go struct `Backend` (lblight.go:14-20).  The
`ReverseProxy` handle is external state and carries no information the
claims are about, so it is dropped; `url` keeps the target string. -/
structure Backend where
  url : String
  alive : Bool
  inUse : Bool
deriving DecidableEq

/-- Result of `NewBackend` (lblight.go:22-35).  When `url.Parse` fails
the Go code calls `log.Fatalf`, which terminates the process; that exit
is the `fatal` constructor.  There is no error-return constructor
because the Go function returns no error. -/
inductive NewBackendResult where
  | fatal
  | made (b : Backend)
deriving DecidableEq

/-- Success payload of `NewBackend`: the backend built once the target
parses (Alive=false, InUse=false, proxy bound to the url). -/
def mkBackend (uri : String) : Backend :=
  { url := uri, alive := false, inUse := false }

/-- Embedding of `NewBackend` (lblight.go:22-35), parameterized by the
result of the external `url.Parse` call (`none` = parse error). -/
def newBackend (parseResult : Option String) : NewBackendResult :=
  match parseResult with
  | none => NewBackendResult.fatal
  | some uri => NewBackendResult.made (mkBackend uri)

/-- Embedding of the Go struct `BackendRouter` (lblight.go:39-53).
`acceptedPaths` is `map[string]bool` (only its key set matters) and
`acceptedHeaders` is `map[string]string`, both as association lists in
one realizable iteration order. -/
structure BackendRouter where
  host : String
  port : Int
  maxBackends : Int
  acceptedPaths : List String
  acceptedHeaders : List (String × String)
  backends : List Backend
deriving DecidableEq

/-- Embedding of `NewBackendRouter` (lblight.go:55-63): fields set from
the arguments, `backends` left at its zero value (empty slice). -/
def newBackendRouter (host : String) (port : Int)
    (acceptedHeaders : List (String × String)) (acceptedPaths : List String)
    (maxBackends : Int) : BackendRouter :=
  { host := host, port := port, maxBackends := maxBackends,
    acceptedPaths := acceptedPaths, acceptedHeaders := acceptedHeaders,
    backends := [] }

/-- Index of the first backend with `InUse == false`, the scan loop of
`GetBackend` (lblight.go:69-75). -/
def findFreeIdx : List Backend → Option Nat
  | [] => none
  | b :: bs => if b.inUse then (findFreeIdx bs).map (· + 1) else some 0

/-- Setting `ber.backends[index].InUse = true` (lblight.go:72). -/
def markInUse (bs : List Backend) (i : Nat) : List Backend :=
  match bs.get? i with
  | some b => bs.set i { b with inUse := true }
  | none => bs

/-- The `fmt.Sprintf("http:%s:%d", ...)`-style target the pool builds a
new backend against (lblight.go:79). -/
def sprintfBackendUri (host : String) (port : Int) : String :=
  "http://" ++ host ++ ":" ++ toString port

/-- Embedding of `BackendRouter.GetBackend` (lblight.go:67-85).  Returns
the updated router and either the index of the handed-out backend (the
Go function returns the pointer) or the error message.  Faithful points:
the scan marks the first free backend in creation order; the capacity
test is `len(backends) <= maxBackends` exactly as in the source; the
newly created backend is appended and returned WITHOUT being marked
in-use (the source never sets `InUse` on the create path). -/
def getBackend (ber : BackendRouter) : BackendRouter × Except String Nat :=
  match findFreeIdx ber.backends with
  | some i =>
      ({ ber with backends := markInUse ber.backends i }, Except.ok i)
  | none =>
      if (ber.backends.length : Int) ≤ ber.maxBackends then
        ({ ber with backends :=
              ber.backends ++ [mkBackend (sprintfBackendUri ber.host ber.port)] },
          Except.ok ber.backends.length)
      else
        (ber, Except.error "unable to provide backend for request")

/-- Sample router: capacity 0, empty pool. -/
def berCap0 : BackendRouter := newBackendRouter "h" 80 [] [] 0

/-- Sample router: capacity 2, empty pool. -/
def berCap2 : BackendRouter := newBackendRouter "h" 80 [] [] 2

/-- C1: the capacity test of `GetBackend` is `len(backends) <=
maxBackends`, so on a group configured with `maxBackends = 0` (already
at capacity: `len(backends) == 0 == maxBackends`, none free) the call
constructs and appends a new Backend instead of returning the
PoolExhausted error, leaving `len(backends) = 1 > maxBackends` — the
claimed strict-`<` check and the `len(backends) <= maxBackends`
invariant both fail on the code. -/
theorem getBackend_exceeds_capacity :
    (getBackend berCap0).2 = Except.ok 0 ∧
    (getBackend berCap0).1.backends.length = 1 ∧
    berCap0.maxBackends = 0 :=
  ⟨rfl, rfl, rfl⟩

/-- C2: on a fresh group with capacity 2, the first `GetBackend` creates
a backend and returns it with `inUse = false` (the create path never
marks it), and the immediately following `GetBackend` — with no release
in between — finds that same backend free and hands it out again: both
calls return backend 0. -/
theorem getBackend_hands_out_same_backend_twice :
    (getBackend berCap2).2 = Except.ok 0 ∧
    ((getBackend berCap2).1.backends.get? 0).map Backend.inUse = some false ∧
    (getBackend (getBackend berCap2).1).2 = Except.ok 0 :=
  ⟨rfl, rfl, rfl⟩

/-- Go map lookup `t[k]` on an association-list model of the map. -/
def mapGet {β : Type} : List (String × β) → String → Option β
  | [], _ => none
  | (k, x) :: rest, key => if k = key then some x else mapGet rest key

/-- Go map insert `t[k] = x`: replace the binding if the key is present,
otherwise add it (new keys appended, fixing insertion order as the
model's iteration order). -/
def mapSet {β : Type} : List (String × β) → String → β → List (String × β)
  | [], key, x => [(key, x)]
  | (k, y) :: rest, key, x =>
      if k = key then (key, x) :: rest else (k, y) :: mapSet rest key x

/-- Model of `strings.ToLower` (character-wise; ASCII folding). -/
def toLowerStr (s : String) : String :=
  ⟨s.data.map Char.toLower⟩

/-- Model of `strings.HasPrefix s pre` via character lists. -/
def hasPfx (s pre : String) : Bool :=
  pre.data.isPrefixOf s.data

/-- Embedding of the Go struct `LBLight` (lblight.go:90-98).  Routers
are referred to by pointer in Go; here by a `Nat` reference.  The field
`pathPrefixToBackendRouter` is rendered `pathPfxToBackendRouter`. -/
structure LBLight where
  port : Int
  pathPfxToBackendRouter : List (String × Nat)
  headerToBackendRouter : List (String × List (String × Nat))
deriving DecidableEq

/-- Embedding of `NewLBLight` (lblight.go:100-107): empty tables. -/
def newLBLight (port : Int) : LBLight :=
  { port := port, pathPfxToBackendRouter := [], headerToBackendRouter := [] }

/-- Embedding of `LBLight.GetBackendRouterByExactPathPrefix`
(lblight.go:111-120): lower-cases the query and does an exact map
lookup.  Note the table entries themselves are stored un-lowered by
`AddBackendRouter` (see `addBackendRouter`). -/
def getBackendRouterByExactPathPfx (l : LBLight) (path : String) :
    Except String Nat :=
  match mapGet l.pathPfxToBackendRouter (toLowerStr path) with
  | some r => Except.ok r
  | none => Except.error ("Unable to find matching backend for path " ++ path)

/-- The loop of `GetBackendRouterByPathPrefix` (lblight.go:126-131):
return the FIRST registered entry, in iteration order, whose key is a
prefix of the lowered path.  No length comparison is made. -/
def findPfxMatch : List (String × Nat) → String → Option Nat
  | [], _ => none
  | (p, r) :: rest, lowerPath =>
      if hasPfx lowerPath p then some r else findPfxMatch rest lowerPath

/-- Embedding of `LBLight.GetBackendRouterByPathPrefix`
(lblight.go:125-134).  Go iterates the map in unspecified order; the
model iterates the association list in insertion order, one of the
orders Go realizes. -/
def getBackendRouterByPathPfx (l : LBLight) (path : String) :
    Except String Nat :=
  match findPfxMatch l.pathPfxToBackendRouter (toLowerStr path) with
  | some r => Except.ok r
  | none => Except.error ("Unable to find matching backend for path " ++ path)

/-- Embedding of `LBLight.GetBackendRouterByHeader` (lblight.go:137-149):
two exact map lookups, name then value, no case folding anywhere. -/
def getBackendRouterByHeader (l : LBLight) (headerName headerValue : String) :
    Except String Nat :=
  match mapGet l.headerToBackendRouter headerName with
  | some headerValues =>
      match mapGet headerValues headerValue with
      | some r => Except.ok r
      | none => Except.error ("Unable to find matching backend for header "
          ++ headerName ++ " : " ++ headerValue)
  | none => Except.error ("Unable to find matching backend for header "
      ++ headerName ++ " : " ++ headerValue)

/-- The path-conflict loop of `AddBackendRouter` (lblight.go:157-166):
the first accepted path already resolvable by exact (lowered) lookup
aborts the registration with a conflict message. -/
def checkPathConflicts (l : LBLight) : List String → Option String
  | [] => none
  | p :: rest =>
      match getBackendRouterByExactPathPfx l p with
      | Except.ok _ =>
          some ("Conflict: Backend path " ++ p ++ " already registered")
      | Except.error _ => checkPathConflicts l rest

/-- The header-conflict loop of `AddBackendRouter` (lblight.go:169-177). -/
def checkHeaderConflicts (l : LBLight) : List (String × String) → Option String
  | [] => none
  | (h, v) :: rest =>
      match getBackendRouterByHeader l h v with
      | Except.ok _ =>
          some ("Conflict: Backend header " ++ h ++ " : " ++ v
            ++ " already registered")
      | Except.error _ => checkHeaderConflicts l rest

/-- The path-commit loop of `AddBackendRouter` (lblight.go:180-184):
`l.pathPrefixToBackendRouter[path] = ber` for each accepted path.  The
key is the path EXACTLY as configured — the source does not lower-case
it here, although both lookup functions lower their query. -/
def commitPaths (t : List (String × Nat)) (berPtr : Nat) :
    List String → List (String × Nat)
  | [] => t
  | p :: rest => commitPaths (mapSet t p berPtr) berPtr rest

/-- One iteration of the header-commit loop (lblight.go:187-197).  When
the per-name bucket exists, Go mutates it through the map reference, so
the write is visible in the table (`mapSet` on the bucket, written
back).  When it does not exist, Go creates a fresh local map, writes the
pair into it, and never stores that map back into
`l.headerToBackendRouter` — the write is lost, so the table is returned
unchanged. -/
def commitHeaderPair (t : List (String × List (String × Nat)))
    (h v : String) (berPtr : Nat) : List (String × List (String × Nat)) :=
  match mapGet t h with
  | some bucket => mapSet t h (mapSet bucket v berPtr)
  | none => t

/-- The header-commit loop of `AddBackendRouter` (lblight.go:186-198). -/
def commitHeaders (t : List (String × List (String × Nat))) (berPtr : Nat) :
    List (String × String) → List (String × List (String × Nat))
  | [] => t
  | (h, v) :: rest => commitHeaders (commitHeaderPair t h v berPtr) berPtr rest

/-- Embedding of `LBLight.AddBackendRouter` (lblight.go:154-200):
validate all accepted paths, then all accepted header pairs, against
the current table; on the first conflict return the error with the
table untouched (the source performs no write before the checks
complete); otherwise commit every path and every header pair.  `berPtr`
is the pointer under which the router is registered. -/
def addBackendRouter (l : LBLight) (berPtr : Nat) (ber : BackendRouter) :
    LBLight × Option String :=
  match checkPathConflicts l ber.acceptedPaths with
  | some e => (l, some e)
  | none =>
      match checkHeaderConflicts l ber.acceptedHeaders with
      | some e => (l, some e)
      | none =>
          ({ l with
              pathPfxToBackendRouter :=
                commitPaths l.pathPfxToBackendRouter berPtr ber.acceptedPaths,
              headerToBackendRouter :=
                commitHeaders l.headerToBackendRouter berPtr ber.acceptedHeaders },
            none)

/-- Empty table, as built by `NewLBLight(443)`. -/
def lbl0 : LBLight := newLBLight 443

/-- Sample router accepting only the header pair (X-Token, abc). -/
def berHdr : BackendRouter := newBackendRouter "h" 81 [("X-Token", "abc")] [] 1

/-- C3: registering a group whose header pair lands in a per-name bucket
that did not exist beforehand reports success, yet the bucket — created
locally and never written back into `headerToBackendRouter` (the
write-back line is commented out in the source) — is dropped, so the
subsequent lookup of exactly that pair fails. -/
theorem addBackendRouter_header_not_persisted :
    (addBackendRouter lbl0 0 berHdr).2 = none ∧
    (addBackendRouter lbl0 0 berHdr).1.headerToBackendRouter = [] ∧
    ∃ e, getBackendRouterByHeader (addBackendRouter lbl0 0 berHdr).1
        "X-Token" "abc" = Except.error e :=
  ⟨rfl, rfl, ⟨_, rfl⟩⟩

/-- Sample router accepting only the upper-cased path "/API". -/
def berAPI : BackendRouter := newBackendRouter "h" 82 [] ["/API"] 1

/-- C5: registering the prefix "/API" succeeds, but the table stores the
key un-lowered while resolution lowers only the request path, so the
path "/api/x" — which starts with "/API" ignoring case — fails to
resolve instead of returning the registered group. -/
theorem pathPfx_matching_not_case_insensitive :
    (addBackendRouter lbl0 0 berAPI).2 = none ∧
    (addBackendRouter lbl0 0 berAPI).1.pathPfxToBackendRouter = [("/API", 0)] ∧
    ∃ e, getBackendRouterByPathPfx (addBackendRouter lbl0 0 berAPI).1
        "/api/x" = Except.error e :=
  ⟨rfl, rfl, ⟨_, rfl⟩⟩

/-- C8: when the external parse of the target address fails, `NewBackend`
does not return a ConfigurationError value — its result type has no
error constructor at all — but hits `log.Fatalf`, i.e. process
termination, modelled by `NewBackendResult.fatal`. -/
theorem newBackend_fatal_on_parse_failure :
    newBackend none = NewBackendResult.fatal :=
  rfl

/-- State of the whole balancer: the routing table plus the heap of
registered routers, indexed by the `Nat` references stored in the
table's maps. -/
structure LBState where
  lbl : LBLight
  routers : List BackendRouter
deriving DecidableEq

/-- Embedding of `LBLight.getBackend` (lblight.go:207-219): resolve the
router by path prefix, then call `GetBackend` on it.  The success value
is the pair (router reference, backend index) identifying the Go
pointer handed out; the router heap records the pool mutation.  The
`none` heap-lookup branch models a dangling router reference, which no
API-built state produces. -/
def lblGetBackend (s : LBState) (path : String) :
    LBState × Except String (Nat × Nat) :=
  match getBackendRouterByPathPfx s.lbl path with
  | Except.error e => (s, Except.error e)
  | Except.ok berPtr =>
      match s.routers.get? berPtr with
      | none => (s, Except.error "dangling backend router reference")
      | some ber =>
          let res := getBackend ber
          ({ s with routers := s.routers.set berPtr res.1 },
            match res.2 with
            | Except.ok i => Except.ok (berPtr, i)
            | Except.error e => Except.error e)

/-- What `handleRequestsAndRedirect` does with the ResponseWriter:
on any error it logs and returns having written nothing (`dropped`);
on success it hands the exchange to the backend's ReverseProxy
(`forwarded`).  No other write to the client exists in the source. -/
inductive DispatchOutcome where
  | dropped
  | forwarded (berPtr : Nat) (backendIdx : Nat)
deriving DecidableEq

/-- Embedding of `LBLight.handleRequestsAndRedirect` (lblight.go:222-232)
applied to a request with the given path. -/
def handleRequestsAndRedirect (s : LBState) (path : String) :
    LBState × DispatchOutcome :=
  match lblGetBackend s path with
  | (s1, Except.error _) => (s1, DispatchOutcome.dropped)
  | (s1, Except.ok pr) => (s1, DispatchOutcome.forwarded pr.1 pr.2)

/-- Sample router owning path "/a" and header pair (X, Y). -/
def berAB : BackendRouter := newBackendRouter "h" 85 [("X", "Y")] ["/a"] 1

/-- Second sample router also claiming path "/a". -/
def berA2 : BackendRouter := newBackendRouter "h2" 86 [] ["/a"] 1

/-- C7: registering a group with path "/a" and header pair (X, Y) into
an empty table reports success and commits the path, and a second group
claiming "/a" is rejected with the conflict error leaving the table
exactly as it was — but the committed registration is not complete: the
(X, Y) pair was silently lost (its fresh bucket never written back), so
"commits all of the group's prefixes and header pairs" fails. -/
theorem addBackendRouter_atomic_but_commit_incomplete :
    (addBackendRouter lbl0 0 berAB).2 = none ∧
    (addBackendRouter lbl0 0 berAB).1.pathPfxToBackendRouter = [("/a", 0)] ∧
    (∃ e, getBackendRouterByHeader (addBackendRouter lbl0 0 berAB).1 "X" "Y" =
        Except.error e) ∧
    (addBackendRouter (addBackendRouter lbl0 0 berAB).1 1 berA2).2 =
      some "Conflict: Backend path /a already registered" ∧
    (addBackendRouter (addBackendRouter lbl0 0 berAB).1 1 berA2).1 =
      (addBackendRouter lbl0 0 berAB).1 :=
  ⟨rfl, rfl, ⟨_, rfl⟩, rfl, rfl⟩

/-- Sample router for path "/b" with capacity 0. -/
def berB : BackendRouter := newBackendRouter "h" 84 [] ["/b"] 0

/-- Balancer state with only `berB` registered, under reference 0. -/
def sB : LBState :=
  { lbl := { port := 443, pathPfxToBackendRouter := [("/b", 0)],
             headerToBackendRouter := [] },
    routers := [berB] }

/-- C9: with an empty table, a request to "/x" fails resolution and the
handler returns having written nothing to the client (`dropped`), and on
the capacity-0 group the third request to "/b" — the pool now exhausted
(its one backend in use, creation refused) — is likewise dropped rather
than answered with a service-unavailable response; the first request, by
contrast, is forwarded. -/
theorem dispatcher_drops_on_failures :
    (handleRequestsAndRedirect { lbl := lbl0, routers := [] } "/x").2 =
      DispatchOutcome.dropped ∧
    (handleRequestsAndRedirect sB "/b").2 = DispatchOutcome.forwarded 0 0 ∧
    (handleRequestsAndRedirect
        (handleRequestsAndRedirect
          (handleRequestsAndRedirect sB "/b").1 "/b").1 "/b").2 =
      DispatchOutcome.dropped :=
  ⟨rfl, rfl, rfl⟩

/-- Helper: writing an in-use backend into a slice slot keeps every slot
that already held an in-use backend in use. -/
theorem get?_set_inUse_true (bs : List Backend) (i j : Nat) (a : Backend)
    (ha : a.inUse = true)
    (h : (bs.get? j).map Backend.inUse = some true) :
    ((bs.set i a).get? j).map Backend.inUse = some true := by
  induction bs generalizing i j with
  | nil => simp at h
  | cons b rest ih =>
    cases i with
    | zero =>
      cases j with
      | zero => simp [ha]
      | succ j' => simpa using h
    | succ i' =>
      cases j with
      | zero => simpa using h
      | succ j' =>
        simp only [List.set, List.get?] at h ⊢
        exact ih i' j' h

/-- Helper: `markInUse` only turns a flag on, so every in-use slot stays
in use. -/
theorem markInUse_preserves_true (bs : List Backend) (i j : Nat)
    (h : (bs.get? j).map Backend.inUse = some true) :
    ((markInUse bs i).get? j).map Backend.inUse = some true := by
  unfold markInUse
  cases hg : bs.get? i with
  | none => exact h
  | some b => exact get?_set_inUse_true bs i j _ rfl h

/-- Helper: appending to the slice keeps every existing in-use slot. -/
theorem get?_append_preserves_true (bs cs : List Backend) (j : Nat)
    (h : (bs.get? j).map Backend.inUse = some true) :
    ((bs ++ cs).get? j).map Backend.inUse = some true := by
  induction bs generalizing j with
  | nil => simp at h
  | cons b rest ih =>
    cases j with
    | zero => simpa using h
    | succ j' =>
      simp only [List.cons_append, List.get?] at h ⊢
      exact ih j' h

/-- Helper: `GetBackend` never clears an `inUse` flag — it only marks a
free backend or appends a fresh one. -/
theorem getBackend_preserves_inUse (ber : BackendRouter) (j : Nat)
    (h : (ber.backends.get? j).map Backend.inUse = some true) :
    ((getBackend ber).1.backends.get? j).map Backend.inUse = some true := by
  unfold getBackend
  cases hf : findFreeIdx ber.backends with
  | some i => exact markInUse_preserves_true _ i j h
  | none =>
    by_cases hc : (ber.backends.length : Int) ≤ ber.maxBackends
    · rw [if_pos hc]
      exact get?_append_preserves_true _ _ j h
    · rw [if_neg hc]
      exact h

/-- Helper: list update at one slot leaves every other slot unchanged. -/
theorem get?_set_ne {α : Type} (l : List α) (i j : Nat) (a : α)
    (h : i ≠ j) : (l.set i a).get? j = l.get? j := by
  induction l generalizing i j with
  | nil => simp
  | cons x rest ih =>
    cases i with
    | zero =>
      cases j with
      | zero => exact absurd rfl h
      | succ j' => simp
    | succ i' =>
      cases j with
      | zero => simp
      | succ j' =>
        simp only [List.set, List.get?]
        exact ih i' j' (fun hh => h (by rw [hh]))

/-- Helper: list update at a slot that is present replaces exactly that
slot. -/
theorem get?_set_self {α : Type} (l : List α) (i : Nat) (a b : α)
    (h : l.get? i = some b) : (l.set i a).get? i = some a := by
  induction l generalizing i with
  | nil => simp at h
  | cons x rest ih =>
    cases i with
    | zero => simp
    | succ i' =>
      simp only [List.set, List.get?] at h ⊢
      exact ih i' h

/-- Helper: the resolve-acquire step never clears an `inUse` flag of any
backend of any router. -/
theorem lblGetBackend_preserves_inUse (s : LBState) (path : String)
    (p j : Nat)
    (h : ((s.routers.get? p).bind (fun r => r.backends.get? j)).map
        Backend.inUse = some true) :
    (((lblGetBackend s path).1.routers.get? p).bind
        (fun r => r.backends.get? j)).map Backend.inUse = some true := by
  unfold lblGetBackend
  split
  · exact h
  · rename_i scr berPtr hr
    split
    · exact h
    · rename_i ber hg
      show Option.map Backend.inUse
          (((s.routers.set berPtr (getBackend ber).1).get? p).bind
            fun r => r.backends.get? j) = some true
      by_cases hp : berPtr = p
      · subst hp
        rw [get?_set_self s.routers berPtr _ ber hg]
        rw [hg] at h
        simp only [Option.some_bind] at h ⊢
        exact getBackend_preserves_inUse ber j h
      · rw [get?_set_ne s.routers berPtr p _ hp]
        exact h

/-- C6: the claim fails because the Dispatcher releases nothing: the
source defines no release operation at all, and `handleRequestsAndRedirect`
leaves every backend that was in use still in use on every exit path
(resolution failure, acquisition failure, and successful forwarding
alike), so the backend acquired for a request is never given back. -/
theorem dispatcher_never_releases (s : LBState) (path : String) (p j : Nat)
    (h : ((s.routers.get? p).bind (fun r => r.backends.get? j)).map
        Backend.inUse = some true) :
    (((handleRequestsAndRedirect s path).1.routers.get? p).bind
        (fun r => r.backends.get? j)).map Backend.inUse = some true := by
  have hst : (handleRequestsAndRedirect s path).1 = (lblGetBackend s path).1 := by
    unfold handleRequestsAndRedirect
    rcases hs : lblGetBackend s path with ⟨s1, r⟩
    cases r <;> rfl
  rw [hst]
  exact lblGetBackend_preserves_inUse s path p j h

/-- Backend already checked out, for the C6 witness state. -/
def beBusy : Backend := { url := "http://h:83", alive := false, inUse := true }

/-- Router whose single backend is in use. -/
def berBusy : BackendRouter :=
  { host := "h", port := 83, maxBackends := 1, acceptedPaths := ["/a"],
    acceptedHeaders := [], backends := [beBusy] }

/-- Balancer state for the C6 witness: "/a" routes to `berBusy`. -/
def sBusy : LBState :=
  { lbl := { port := 443, pathPfxToBackendRouter := [("/a", 0)],
             headerToBackendRouter := [] },
    routers := [berBusy] }

/-- Witness for C6 at a concrete state: a request to "/a/x" is resolved,
forwarded, and still leaves the previously acquired backend in use. -/
theorem dispatcher_never_releases_witness :
    (((handleRequestsAndRedirect sBusy "/a/x").1.routers.get? 0).bind
        (fun r => r.backends.get? 0)).map Backend.inUse = some true :=
  dispatcher_never_releases sBusy "/a/x" 0 0 rfl

/-- Sample router owning path "/api". -/
def berApi : BackendRouter := newBackendRouter "h" 87 [] ["/api"] 1

/-- Sample router owning path "/api/v2". -/
def berApiV2 : BackendRouter := newBackendRouter "h" 88 [] ["/api/v2"] 1

/-- Table with "/api" registered to router 0 and then "/api/v2" to
router 1 (registration order = one realizable Go map iteration order). -/
def lblApi : LBLight :=
  (addBackendRouter (addBackendRouter lbl0 0 berApi).1 1 berApiV2).1

/-- C4 counterexample: with "/api" registered to group 0 and "/api/v2"
to group 1, resolving "/api/v2/users" returns group 0, although the
longest registered prefix matching the path is "/api/v2", which belongs
to group 1 — the loop returns the first match in iteration order and
never compares lengths, so longest-prefix selection (and with it
order-independent determinism) fails. -/
theorem pathPfx_resolution_not_longest_match :
    lblApi.pathPfxToBackendRouter = [("/api", 0), ("/api/v2", 1)] ∧
    hasPfx (toLowerStr "/api/v2/users") "/api/v2" = true ∧
    ("/api/v2" : String).length > ("/api" : String).length ∧
    getBackendRouterByPathPfx lblApi "/api/v2/users" = Except.ok 0 ∧
    getBackendRouterByPathPfx lblApi "/api/v2/users" ≠ Except.ok 1 := by
  refine ⟨rfl, rfl, by decide, rfl, ?_⟩
  intro hcontra
  rw [show getBackendRouterByPathPfx lblApi "/api/v2/users" = Except.ok 0
      from rfl] at hcontra
  simp at hcontra

/-- Helper: the prefix-scan loop reports no match exactly when no
registered entry's key is a prefix of the (lowered) path. -/
theorem findPfxMatch_none_iff (t : List (String × Nat)) (s : String) :
    findPfxMatch t s = none ↔ ∀ p g, (p, g) ∈ t → hasPfx s p = false := by
  induction t with
  | nil => simp [findPfxMatch]
  | cons kv rest ih =>
    obtain ⟨p, r⟩ := kv
    simp only [findPfxMatch]
    by_cases hm : hasPfx s p = true
    · rw [if_pos hm]
      constructor
      · intro hcontra
        exact Option.noConfusion hcontra
      · intro hall
        have hp := hall p r (List.mem_cons_self _ _)
        rw [hp] at hm
        exact Bool.noConfusion hm
    · rw [if_neg hm, ih]
      constructor
      · intro hall q g hq
        rcases List.mem_cons.mp hq with hh | ht
        · rw [Prod.mk.injEq] at hh
          obtain ⟨h1, _⟩ := hh
          subst h1
          cases hb : hasPfx s q
          · rfl
          · exact absurd hb hm
        · exact hall q g ht
      · intro hall q g hq
        exact hall q g (List.mem_cons_of_mem _ hq)

/-- Helper: when the prefix-scan loop answers `g`, the table splits as
`t₁ ++ (p, g) :: t₂` with `p` matching and nothing in `t₁` matching —
the answer is the FIRST matching entry in iteration order. -/
theorem findPfxMatch_some_split (t : List (String × Nat)) (s : String)
    (g : Nat) (h : findPfxMatch t s = some g) :
    ∃ t₁ p t₂, t = t₁ ++ (p, g) :: t₂ ∧ hasPfx s p = true ∧
      ∀ q r, (q, r) ∈ t₁ → hasPfx s q = false := by
  induction t with
  | nil => exact absurd h (by simp [findPfxMatch])
  | cons kv rest ih =>
    obtain ⟨p, r⟩ := kv
    simp only [findPfxMatch] at h
    by_cases hm : hasPfx s p = true
    · rw [if_pos hm] at h
      obtain rfl : r = g := by injection h
      exact ⟨[], p, rest, rfl, hm, by simp⟩
    · rw [if_neg hm] at h
      obtain ⟨t₁, p', t₂, ht, hp', hnone⟩ := ih h
      refine ⟨(p, r) :: t₁, p', t₂, by rw [ht, List.cons_append], hp', ?_⟩
      intro q r' hq
      rcases List.mem_cons.mp hq with hh | ht'
      · rw [Prod.mk.injEq] at hh
        obtain ⟨h1, _⟩ := hh
        subst h1
        cases hb : hasPfx s q
        · rfl
        · exact absurd hb hm
      · exact hnone q r' ht'

/-- C4 (amended): `GetBackendRouterByPathPrefix` returns the group of
the FIRST registered prefix, in the table's iteration order, that is a
prefix of the case-folded path (no length comparison, so not the
longest and not independent of storage order — Go map iteration order is
unspecified), and it returns an error exactly when no registered prefix
matches the case-folded path. -/
theorem getBackendRouterByPathPfx_first_match (l : LBLight) (path : String) :
    (∀ g, getBackendRouterByPathPfx l path = Except.ok g →
      ∃ t₁ p t₂, l.pathPfxToBackendRouter = t₁ ++ (p, g) :: t₂ ∧
        hasPfx (toLowerStr path) p = true ∧
        ∀ q r, (q, r) ∈ t₁ → hasPfx (toLowerStr path) q = false) ∧
    ((∃ e, getBackendRouterByPathPfx l path = Except.error e) ↔
      ∀ p g, (p, g) ∈ l.pathPfxToBackendRouter →
        hasPfx (toLowerStr path) p = false) := by
  constructor
  · intro g hg
    unfold getBackendRouterByPathPfx at hg
    cases hf : findPfxMatch l.pathPfxToBackendRouter (toLowerStr path) with
    | none => rw [hf] at hg; exact Except.noConfusion hg
    | some r =>
        rw [hf] at hg
        obtain rfl : r = g := by injection hg
        exact findPfxMatch_some_split _ _ _ hf
  · constructor
    · rintro ⟨e, he⟩
      unfold getBackendRouterByPathPfx at he
      cases hf : findPfxMatch l.pathPfxToBackendRouter (toLowerStr path) with
      | none => exact (findPfxMatch_none_iff _ _).mp hf
      | some r => rw [hf] at he; exact Except.noConfusion he
    · intro hall
      have hf : findPfxMatch l.pathPfxToBackendRouter (toLowerStr path) = none :=
        (findPfxMatch_none_iff _ _).mpr hall
      refine ⟨"Unable to find matching backend for path " ++ path, ?_⟩
      unfold getBackendRouterByPathPfx
      rw [hf]

/-- Table for the C4 witness: the single prefix "/a" owned by group 5. -/
def lblW : LBLight :=
  { port := 0, pathPfxToBackendRouter := [("/a", 5)],
    headerToBackendRouter := [] }

/-- Witness for the amended C4 at a concrete table and path: resolving
"/A/x" against the table holding only "/a" → 5 yields the first-match
decomposition. -/
theorem getBackendRouterByPathPfx_first_match_witness :
    ∃ t₁ p t₂, lblW.pathPfxToBackendRouter = t₁ ++ (p, 5) :: t₂ ∧
      hasPfx (toLowerStr "/A/x") p = true ∧
      ∀ q r, (q, r) ∈ t₁ → hasPfx (toLowerStr "/A/x") q = false :=
  (getBackendRouterByPathPfx_first_match lblW "/A/x").1 5 rfl

/-- C10: header resolution is exact, case-sensitive string matching on
both the name and the value: on a table holding exactly the pair
(n, v) → g, looking up precisely (n, v) returns group g, and looking up
any other pair — in particular one differing only in letter case in the
name or in the value — returns an error. -/
theorem getBackendRouterByHeader_exact_case_sensitive (l : LBLight)
    (n v : String) (g : Nat)
    (hset : l.headerToBackendRouter = [(n, [(v, g)])]) :
    getBackendRouterByHeader l n v = Except.ok g ∧
    ∀ n' v', (n', v') ≠ (n, v) →
      ∃ e, getBackendRouterByHeader l n' v' = Except.error e := by
  constructor
  · unfold getBackendRouterByHeader
    rw [hset]
    simp [mapGet]
  · intro n' v' hne
    unfold getBackendRouterByHeader
    rw [hset]
    by_cases hn : n = n'
    · by_cases hv : v = v'
      · exact absurd (show (n', v') = (n, v) by rw [← hn, ← hv]) hne
      · refine ⟨"Unable to find matching backend for header "
            ++ n' ++ " : " ++ v', ?_⟩
        simp [mapGet, hn, hv]
    · refine ⟨"Unable to find matching backend for header "
          ++ n' ++ " : " ++ v', ?_⟩
      simp [mapGet, hn]

/-- Table for the C10 witness: only the pair (X-Token, abc) → 7. -/
def lblHdrW : LBLight :=
  { port := 0, pathPfxToBackendRouter := [],
    headerToBackendRouter := [("X-Token", [("abc", 7)])] }

/-- Witness for C10 at concrete strings: the exact pair resolves to
group 7, while the lower-cased name and the upper-cased value both
fail. -/
theorem getBackendRouterByHeader_exact_case_sensitive_witness :
    getBackendRouterByHeader lblHdrW "X-Token" "abc" = Except.ok 7 ∧
    (∃ e, getBackendRouterByHeader lblHdrW "x-token" "abc" = Except.error e) ∧
    (∃ e, getBackendRouterByHeader lblHdrW "X-Token" "ABC" = Except.error e) := by
  have h := getBackendRouterByHeader_exact_case_sensitive lblHdrW
    "X-Token" "abc" 7 rfl
  exact ⟨h.1, h.2 "x-token" "abc" (by decide), h.2 "X-Token" "ABC" (by decide)⟩
